import Mathlib

/-!
Verification of the English pipeline orchestration in `spacy/en/__init__.py`
and the sentence-span scenario of `tests/spans/test_span.py`.

The pipeline arguments `tag`, `parse` and `entity` are Python objects that the
code compares numerically (`parse == True`, `tag == False`, `parse == -1`) and
tests for truthiness (`if parse and ...`).  Python booleans are numerically
equal to 0 and 1, so the arguments are embedded as `Int` with `True = 1`,
`False = 0` and the sentinel `parse_if_model_present = -1`; truthiness of an
int is being nonzero.
-/

/-- Lexical flag word.

Modelled from the spec: `get_flags` lives in `spacy/en/attrs.py`, which is not
under `src/`.  The spec describes it as a "boolean flag set (is-alpha,
is-digit, is-punct, is-space, etc.)" with "flags computed from character
inspection", always succeeding.  The flags are packed as a small bit set. -/
def get_flags (s : String) : Nat :=
  (if s.data ≠ [] ∧ s.data.all Char.isAlpha then 1 else 0) +
  (if s.data ≠ [] ∧ s.data.all Char.isDigit then 2 else 0) +
  (if s.data ≠ [] ∧ s.data.all Char.isWhitespace then 4 else 0)

/-- Word shape signature.

Modelled from the spec: `orth.word_shape` lives in `spacy/orth`, which is not
under `src/`.  The spec describes the shape as an "abstracted character
pattern, e.g. digits to d, capital to X". -/
def word_shape (s : String) : String :=
  String.mk (s.data.map fun c =>
    if c.isDigit then 'd' else if c.isUpper then 'X' else if c.isAlpha then 'x' else c)

/-- The property map built by `get_lex_props` in `spacy/en/__init__.py`.
The source key `prefix` is rendered as `prefix_`. -/
structure LexProps where
  flags : Nat
  length : Nat
  orth : String
  lower : String
  norm : String
  shape : String
  prefix_ : String
  suffix : String
  cluster : Nat
  prob : Int
  sentiment : Int
deriving Repr, DecidableEq

/-- Python `string.lower()`, modelled character-wise with the ASCII case
mapping. -/
def str_lower (s : String) : String :=
  String.mk (s.data.map Char.toLower)

/-- Embedding of `get_lex_props` from `spacy/en/__init__.py`.  The Python
expression `string[0]` raises `IndexError` on an empty string, so the
function is fallible and returns `none` exactly there; `string[-3:]` is a
total slice returning the last (at most) 3 characters. -/
def get_lex_props (s : String) : Option LexProps :=
  match s.data with
  | [] => none
  | c :: _ =>
      some ⟨get_flags s, s.length, s, str_lower s, s, word_shape s,
            String.mk [c], String.mk (s.data.drop (s.data.length - 3)), 0, 0, 0⟩

/-- Whitespace splitting of a character list into non-empty chunks: the
behaviour of `text.split()` style segmentation used by the tokenizer.

Modelled from the spec: the tokenizer (`spacy/tokenizer`) is not under
`src/`; the spec says it "split[s] on whitespace into candidate chunks". -/
def splitChunks : List Char → List Char → List (List Char)
  | [], acc => if acc = [] then [] else [acc.reverse]
  | c :: rest, acc =>
      if c = ' ' then
        if acc = [] then splitChunks rest [] else acc.reverse :: splitChunks rest []
      else splitChunks rest (c :: acc)

/-- Suffix handling for one chunk.

Modelled from the spec: the tokenizer strips "matched ... suffix-regex pieces
from the outside in"; a trailing full stop is split off as its own token. -/
def segmentChunk (cs : List Char) : List (List Char) :=
  if cs.getLast? = some '.' ∧ 1 < cs.length then [cs.dropLast, ['.']] else [cs]

/-- Tokenizer segmentation of a text into word strings.

Modelled from the spec: `Tokenizer.segment` (`spacy/tokenizer`) is not under
`src/`; the spec gives whitespace splitting followed by affix stripping, each
final substring becoming one token. -/
def segmentText (text : String) : List String :=
  ((splitChunks text.data []).flatMap segmentChunk).map String.mk

/-- Sentence ranges of a token buffer, as half-open index pairs.

Modelled from the spec: `Tokens.sents` (`spacy/tokens`) is not under `src/`;
the spec says sentence iteration yields "contiguous sub-ranges of the buffer,
split at token boundaries where the tag/punctuation indicates sentence end",
tiling the buffer.  A sentence ends right after a full-stop token. -/
def sentsFrom : List String → Nat → Nat → List (Nat × Nat)
  | [], start, i => if start < i then [(start, i)] else []
  | w :: rest, start, i =>
      if w = "." then (start, i + 1) :: sentsFrom rest (i + 1) (i + 1)
      else sentsFrom rest start (i + 1)

/-- Sentence ranges of a whole buffer (see `sentsFrom`). -/
def sents (toks : List String) : List (Nat × Nat) :=
  sentsFrom toks 0 0

/-- The token buffer (`spacy.tokens.Tokens`).  `createdFrom` and `words`
identify the buffer built by the tokenizer; the remaining fields are the
per-buffer annotation slots that the stages mutate in place.

Modelled from the spec where the class body (`spacy/tokens`, not under
`src/`) is concerned: the tagger "mutates tag slots", the parser "mutates
head/label slots", the recognizer "mutates entity slots". -/
structure Tokens where
  createdFrom : String
  words : List String
  tagsSet : Bool
  headsSet : Bool
  entsSet : Bool
  mwesMerged : Bool
deriving Repr, DecidableEq

/-- `self.tokenizer(text)`: builds a fresh, unannotated buffer for `text`. -/
def tokenize (text : String) : Tokens :=
  ⟨text, segmentText text, false, false, false, false⟩

/-- `self.tagger(tokens)`: in-place mutation of the tag slots only. -/
def taggerApply (t : Tokens) : Tokens :=
  ⟨t.createdFrom, t.words, true, t.headsSet, t.entsSet, t.mwesMerged⟩

/-- `self.parser(tokens)`: in-place mutation of the head/label slots only. -/
def parserApply (t : Tokens) : Tokens :=
  ⟨t.createdFrom, t.words, t.tagsSet, true, t.entsSet, t.mwesMerged⟩

/-- `self.entity(tokens)`: in-place mutation of the entity slots only. -/
def entityApply (t : Tokens) : Tokens :=
  ⟨t.createdFrom, t.words, t.tagsSet, t.headsSet, true, t.mwesMerged⟩

/-- `self.mwe_merger(tokens)`: in-place multi-word merging. -/
def mweApply (t : Tokens) : Tokens :=
  ⟨t.createdFrom, t.words, t.tagsSet, t.headsSet, t.entsSet, true⟩

/-- The model-presence booleans `has_tagger_model`, `has_parser_model`,
`has_entity_model` computed in `English.__init__`. -/
structure ModelFlags where
  has_tagger_model : Bool
  has_parser_model : Bool
  has_entity_model : Bool
deriving Repr, DecidableEq

/-- Observable pipeline effects, in execution order. -/
inductive Stage
  | tokenizeS
  | tagS
  | parseS
  | entityS
  | mergeS
deriving Repr, DecidableEq

/-- The two error kinds raised by `English.__call__`: `ValueError` for
incompatible arguments and `IOError` for a missing model. -/
inductive PipeError
  | valueError (msg : String)
  | ioError (msg : String)
deriving Repr, DecidableEq

/-- The `if parse == -1 and tag == False: parse = False / elif parse == -1 and
not self.has_parser_model: parse = False` resolution in `English.__call__`
(and its twin for `entity`). -/
def resolveAuto (x tag : Int) (hasModel : Bool) : Int :=
  if x = -1 ∧ tag = 0 then 0
  else if x = -1 ∧ hasModel = false then 0
  else x

/-- Embedding of `English.__call__(text, tag, parse, entity, merge_mwes)`.
Returns the ordered list of stage effects that ran together with either the
raised error or the returned buffer.  Each `if`/`raise`/stage call mirrors one
statement of the source, in source order. -/
def enCall (m : ModelFlags) (text : String) (tag parse entity : Int)
    (merge_mwes : Bool) : List Stage × Except PipeError Tokens :=
  if parse = 1 ∧ tag = 0 then
    ([], .error (.valueError "Incompatible arguments: tag=False, parse=True Part-of-speech tags are required for parsing."))
  else if entity = 1 ∧ tag = 0 then
    ([], .error (.valueError "Incompatible arguments: tag=False, entity=True Part-of-speech tags are required for entity recognition."))
  else
    let t0 := tokenize text
    let parse2 := resolveAuto parse tag m.has_parser_model
    let entity2 := resolveAuto entity tag m.has_entity_model
    let tagged : Bool := decide (tag ≠ 0) && m.has_tagger_model
    let t1 := if tagged then taggerApply t0 else t0
    let tr1 := if tagged then [Stage.tokenizeS, Stage.tagS] else [Stage.tokenizeS]
    if parse2 = 1 ∧ m.has_parser_model = false then
      (tr1, .error (.ioError "Received parse=True, but parser model not found."))
    else if entity2 = 1 ∧ m.has_entity_model = false then
      (tr1, .error (.ioError "Received entity=True, but entity model not found."))
    else
      let doParse : Bool := decide (parse2 ≠ 0) && m.has_parser_model
      let doEntity : Bool := decide (entity2 ≠ 0) && m.has_entity_model
      let t2 := if doParse then parserApply t1 else t1
      let t3 := if doEntity then entityApply t2 else t2
      let t4 := if merge_mwes then mweApply t3 else t3
      (tr1 ++ (if doParse then [Stage.parseS] else [])
           ++ (if doEntity then [Stage.entityS] else [])
           ++ (if merge_mwes then [Stage.mergeS] else []), .ok t4)

/-- The lazily initialized stage slots of an `English` instance, plus an
allocation counter modelling object identity of constructed engines. -/
structure EnglishState where
  tagger_ : Option Nat
  parser_ : Option Nat
  entity_ : Option Nat
  nextId : Nat
deriving Repr, DecidableEq

/-- `English.__init__` sets `self._tagger = self._parser = self._entity = None`. -/
def englishInit : EnglishState :=
  ⟨none, none, none, 0⟩

/-- The `tagger` property: construct `EnPosTagger` on first access, then
return the cached object.  Construction is modelled as allocating a fresh
identity. -/
def taggerProp (e : EnglishState) : EnglishState × Nat :=
  match e.tagger_ with
  | none => (⟨some e.nextId, e.parser_, e.entity_, e.nextId + 1⟩, e.nextId)
  | some t => (e, t)

/-- The `parser` property, analogous to `taggerProp`. -/
def parserProp (e : EnglishState) : EnglishState × Nat :=
  match e.parser_ with
  | none => (⟨e.tagger_, some e.nextId, e.entity_, e.nextId + 1⟩, e.nextId)
  | some p => (e, p)

/-- The `entity` property, analogous to `taggerProp`. -/
def entityProp (e : EnglishState) : EnglishState × Nat :=
  match e.entity_ with
  | none => (⟨e.tagger_, e.parser_, some e.nextId, e.nextId + 1⟩, e.nextId)
  | some p => (e, p)

/-- C1: for every text, calling the pipeline with tag=False while parse=True
or entity=True raises a ValueError (argument incompatibility), and the effect
trace is empty: the error is raised before tokenization or any other stage
runs. -/
theorem enCall_arg_incompatibility (m : ModelFlags) (text : String)
    (parse entity : Int) (merge : Bool) (h : parse = 1 ∨ entity = 1) :
    (enCall m text 0 parse entity merge).1 = [] ∧
    ∃ s, (enCall m text 0 parse entity merge).2 = .error (.valueError s) := by
  by_cases hp : parse = 1
  · subst hp
    exact ⟨rfl, _, rfl⟩
  · have he : entity = 1 := h.resolve_left hp
    subst he
    simp [enCall, hp]

theorem enCall_arg_incompatibility_witness :
    ((1 : Int) = 1 ∨ (0 : Int) = 1) ∧
    ((enCall ⟨true, true, true⟩ "An example" 0 1 0 false).1 = [] ∧
     ∃ s, (enCall ⟨true, true, true⟩ "An example" 0 1 0 false).2 =
       .error (.valueError s)) :=
  ⟨Or.inl rfl,
   enCall_arg_incompatibility ⟨true, true, true⟩ "An example" 1 0 false (Or.inl rfl)⟩

/-- C2 counterexample: with tag=True but no tagger model the call does not
fail at all; it succeeds and returns the untagged buffer, so the claim that
every explicitly requested stage with an absent model fails is false for the
tagger. -/
theorem enCall_tag_true_no_model_succeeds :
    (enCall ⟨false, false, false⟩ "hello" 1 0 0 false).2 = .ok (tokenize "hello") :=
  rfl

/-- C2 amended: with tagging enabled, explicitly requesting the parser or the
entity recognizer (=True) while the corresponding model is absent fails with
an IOError, an error kind distinguishable from the ValueError used for
argument incompatibility; the tagger stage itself never raises on a missing
model. -/
theorem enCall_model_not_found (m : ModelFlags) (text : String)
    (tag parse entity : Int) (merge : Bool) (htag : tag ≠ 0)
    (h : (parse = 1 ∧ m.has_parser_model = false) ∨
         (entity = 1 ∧ m.has_entity_model = false)) :
    ∃ s, (enCall m text tag parse entity merge).2 = .error (.ioError s) ∧
      ∀ s2, PipeError.ioError s ≠ PipeError.valueError s2 := by
  rcases m with ⟨tm, pm, em⟩
  rcases h with ⟨hp, hpm⟩ | ⟨he, hem⟩
  · subst hp
    subst hpm
    simp [enCall, resolveAuto, htag]
  · subst he
    subst hem
    by_cases hpp : resolveAuto parse tag pm = 1 ∧ pm = false
    · simp [enCall, resolveAuto, htag, hpp]
      split_ifs <;> exact ⟨_, rfl⟩
    · simp [enCall, resolveAuto, htag, hpp]
      split_ifs <;> exact ⟨_, rfl⟩

theorem enCall_model_not_found_witness :
    ((1 : Int) ≠ 0 ∧
     ((1 : Int) = 1 ∧ ModelFlags.has_parser_model ⟨true, false, true⟩ = false)) ∧
    ∃ s, (enCall ⟨true, false, true⟩ "a" 1 1 (-1) false).2 = .error (.ioError s) ∧
      ∀ s2, PipeError.ioError s ≠ PipeError.valueError s2 :=
  ⟨⟨by decide, rfl, rfl⟩,
   enCall_model_not_found ⟨true, false, true⟩ "a" 1 1 (-1) false (by decide)
     (Or.inl ⟨rfl, rfl⟩)⟩

/-- C3: with parse and entity requested as auto (-1), the call always
succeeds, and the parser (respectively entity) stage runs precisely when
tagging is enabled and the corresponding model is present; an absent model
under auto is silently skipped. -/
theorem enCall_auto_resolution (m : ModelFlags) (text : String) (tag : Int)
    (merge : Bool) :
    (∃ toks, (enCall m text tag (-1) (-1) merge).2 = .ok toks) ∧
    (Stage.parseS ∈ (enCall m text tag (-1) (-1) merge).1 ↔
      tag ≠ 0 ∧ m.has_parser_model = true) ∧
    (Stage.entityS ∈ (enCall m text tag (-1) (-1) merge).1 ↔
      tag ≠ 0 ∧ m.has_entity_model = true) := by
  rcases m with ⟨tm, pm, em⟩
  by_cases htag : tag = 0 <;>
    cases tm <;> cases pm <;> cases em <;> cases merge <;>
      simp [enCall, resolveAuto, htag]

/-- C4: with tag=True but no tagger model (default auto parse/entity), the
call succeeds, the tagging stage never runs, and the returned buffer's tags
remain unset. -/
theorem enCall_tagger_noop (m : ModelFlags) (text : String)
    (h : m.has_tagger_model = false) :
    ∃ toks, (enCall m text 1 (-1) (-1) false).2 = .ok toks ∧
      toks.tagsSet = false ∧ Stage.tagS ∉ (enCall m text 1 (-1) (-1) false).1 := by
  rcases m with ⟨tm, pm, em⟩
  subst h
  cases pm <;> cases em <;>
    simp [enCall, resolveAuto, tokenize, taggerApply, parserApply, entityApply]

theorem enCall_tagger_noop_witness :
    ModelFlags.has_tagger_model ⟨false, true, true⟩ = false ∧
    ∃ toks, (enCall ⟨false, true, true⟩ "a b" 1 (-1) (-1) false).2 = .ok toks ∧
      toks.tagsSet = false ∧
      Stage.tagS ∉ (enCall ⟨false, true, true⟩ "a b" 1 (-1) (-1) false).1 :=
  ⟨rfl, enCall_tagger_noop ⟨false, true, true⟩ "a b" rfl⟩

/-- C5 counterexample: on the empty string the body of get_lex_props
evaluates string[0], which raises IndexError, so the function does not
succeed for every input string. -/
theorem get_lex_props_empty_fails : get_lex_props "" = none :=
  rfl

/-- C5 amended: get_lex_props succeeds on every non-empty input string, and
the tokenizer never produces an empty word form, so every form passed to
lookup is safe. -/
theorem get_lex_props_nonempty_total (s : String) (h : s ≠ "") :
    (get_lex_props s).isSome = true := by
  obtain ⟨d⟩ := s
  cases d with
  | nil => exact absurd rfl h
  | cons c cs => simp [get_lex_props]

theorem get_lex_props_nonempty_total_witness :
    "a" ≠ "" ∧ (get_lex_props "a").isSome = true :=
  ⟨by decide, get_lex_props_nonempty_total "a" (by decide)⟩

/-- C6 counterexample: on the empty string get_lex_props returns no property
map at all (the Python code raises IndexError), so the stated field equations
do not hold for every word-form string. -/
theorem get_lex_props_empty_no_map : (get_lex_props "").isNone = true :=
  rfl

/-- C6 amended: whenever get_lex_props returns a property map (that is, for
every non-empty word form), its length is the number of characters of the
string, its prefix_ is the first character, its suffix is the last (at most)
3 characters, its lower field is the lowercase form, and its cluster, prob
and sentiment are 0. -/
theorem get_lex_props_fields (s : String) (p : LexProps)
    (h : get_lex_props s = some p) :
    p.length = s.length ∧
    p.prefix_.data = s.data.take 1 ∧
    p.suffix.data = s.data.rtake 3 ∧
    p.lower = str_lower s ∧
    p.cluster = 0 ∧ p.prob = 0 ∧ p.sentiment = 0 := by
  obtain ⟨d⟩ := s
  cases d with
  | nil => simp [get_lex_props] at h
  | cons c cs =>
      simp only [get_lex_props] at h
      cases h
      simp [List.rtake]

theorem get_lex_props_fields_witness :
    get_lex_props "Who" =
      some ⟨1, 3, "Who", "who", "Who", "Xxx", "W", "Who", 0, 0, 0⟩ ∧
    ((3 : Nat) = "Who".length ∧
     "W".data = "Who".data.take 1 ∧
     "Who".data = "Who".data.rtake 3 ∧
     "who" = str_lower "Who" ∧
     (0 : Nat) = 0 ∧ (0 : Int) = 0 ∧ (0 : Int) = 0) :=
  ⟨by decide,
   get_lex_props_fields "Who" ⟨1, 3, "Who", "who", "Who", "Xxx", "W", "Who", 0, 0, 0⟩
     (by decide)⟩

/-- C7: after __init__ no stage engine exists, and each stage accessor is
idempotent: accessing a second time changes nothing and returns the object
constructed (and cached) by the first access, so the constructor runs at most
once per instance. -/
theorem lazy_engine_accessors :
    (englishInit.tagger_ = none ∧ englishInit.parser_ = none ∧
     englishInit.entity_ = none) ∧
    (∀ e, taggerProp (taggerProp e).1 = taggerProp e) ∧
    (∀ e, parserProp (parserProp e).1 = parserProp e) ∧
    (∀ e, entityProp (entityProp e).1 = entityProp e) := by
  refine ⟨⟨rfl, rfl, rfl⟩, ?_, ?_, ?_⟩ <;>
    exact fun e => by
      rcases e with ⟨t, p, n, i⟩
      cases t <;> cases p <;> cases n <;> rfl

/-- C8: on every successful call the returned buffer is the tokenizer's
buffer for that text: the stages only fill annotation slots in place, so its
identity (source text) and its word sequence are those the tokenizer
produced. -/
theorem enCall_buffer_identity (m : ModelFlags) (text : String)
    (tag parse entity : Int) (merge : Bool) (toks : Tokens)
    (h : (enCall m text tag parse entity merge).2 = .ok toks) :
    toks.createdFrom = (tokenize text).createdFrom ∧
    toks.words = (tokenize text).words := by
  rcases m with ⟨tm, pm, em⟩
  simp only [enCall] at h
  split_ifs at h <;> simp at h <;> subst h <;>
    simp [taggerApply, parserApply, entityApply, mweApply, tokenize]

theorem enCall_buffer_identity_witness :
    (enCall ⟨false, false, false⟩ "a b" 1 0 0 false).2 = .ok (tokenize "a b") ∧
    ((tokenize "a b").createdFrom = (tokenize "a b").createdFrom ∧
     (tokenize "a b").words = (tokenize "a b").words) :=
  ⟨rfl, enCall_buffer_identity ⟨false, false, false⟩ "a b" 1 0 0 false
          (tokenize "a b") rfl⟩

/-- C9: a truthy parse (or entity) argument that is neither True (1) nor the
auto sentinel (-1), such as 2, bypasses the argument-incompatibility check
and the model-not-found check: the call succeeds even with tag=False, and the
stage runs exactly when its model is present. -/
theorem enCall_truthy_bypass (m : ModelFlags) (text : String) (merge : Bool) :
    (∃ toks, (enCall m text 0 2 0 merge).2 = .ok toks) ∧
    (Stage.parseS ∈ (enCall m text 0 2 0 merge).1 ↔ m.has_parser_model = true) ∧
    (∃ toks, (enCall m text 0 0 2 merge).2 = .ok toks) ∧
    (Stage.entityS ∈ (enCall m text 0 0 2 merge).1 ↔ m.has_entity_model = true) := by
  rcases m with ⟨tm, pm, em⟩
  cases tm <;> cases pm <;> cases em <;> cases merge <;>
    simp [enCall, resolveAuto]

/-- C10: on the text of test_sent_spans the buffer yields exactly 3
sentences, the first spanning indices [0,5), and the sentence lengths sum to
the buffer length. -/
theorem sentence_span_scenario :
    (sents (segmentText "This is a sentence. This is another sentence. And a third.")).length = 3 ∧
    (sents (segmentText "This is a sentence. This is another sentence. And a third.")).head? =
      some (0, 5) ∧
    ((sents (segmentText "This is a sentence. This is another sentence. And a third.")).map
        fun p => p.2 - p.1).sum =
      (segmentText "This is a sentence. This is another sentence. And a third.").length := by
  exact ⟨rfl, rfl, rfl⟩
